import Mathlib

/-!
Verification of the pre_funnel lead-discovery orchestration layer.

This file gives a shallow embedding, in Lean, of the parts of the Python
source that the specification talks about:

* `agents/validate_rank.py` — deduplication and ranking of candidate
  profiles (`validate_and_rank`);
* `user_auth.py` — the SQLite-backed credential store and usage tracker
  (`store_social_token`, `get_user_token`, `refresh_token`,
  `track_api_usage`, `get_user_usage`);
* `agents/linkedin_scout.py`, `agents/x_scout.py`,
  `agents/email_scout.py`, `agents/internet_scout.py` — the tiered
  source scouts, together with the relevant control-flow structure of
  the shared/enhanced backends they dispatch to;
* `app.py` — the fan-out / aggregation / enrichment stages of the
  `/api/lead-discovery` request pipeline.

Python dictionaries holding candidate profiles are modelled by the
`Profile` structure with `Option` fields (a `none` field models an
absent key).  Python exceptions are modelled by the `PyExc` error type
together with `Except`.  SQLite tables are modelled by lists of row
structures; the semantics of `INSERT OR REPLACE` / `INSERT OR IGNORE`
is modelled exactly for the schema declared in `init_database` (which
has no UNIQUE constraint besides the autoincrement primary keys, so
both statements behave as plain `INSERT`).  Floating-point scores are
modelled by `Rat`: the code never does float arithmetic on them, it
only assigns literals and compares, and comparison of the small decimal
literals involved agrees with rational comparison.
-/

namespace PreFunnel

/-- Kinds of Python exception relevant to the modelled code paths.
`importError` models `ImportError` raised by a failed module import
(the only exception the scouts catch); `keyError` models `KeyError`
from a missing dictionary key; `runtimeError` stands for any other
exception raised by an external collaborator. -/
inductive PyExc where
  | importError
  | keyError
  | runtimeError
deriving DecidableEq, Repr

/-- A candidate-profile dictionary, as produced by the scouts and
consumed by `validate_and_rank` and the pipeline.  Each `Option` field
models a key that may be absent from the Python dict ( `name?` is the
`name` key, `score?` the `score` key written by `validate_and_rank`,
`source?` the `source` tag, `message` the `message` key written by the
enrichment stage). -/
structure Profile where
  name? : Option String := none
  title : Option String := none
  company : Option String := none
  linkedin : Option String := none
  xHandle : Option String := none
  source? : Option String := none
  confidence : Option Rat := none
  score? : Option Rat := none
  message : Option String := none
deriving DecidableEq, Repr

/-- `p['score'] = s` on a profile dict: overwrite (or create) the
`score` key. -/
def setScore (s : Rat) (p : Profile) : Profile := { p with score? := some s }

/-- The sort key `x['score']` used by `validate_and_rank`.  At the
point of the sort every record has just been given `score = 1.0`, so
the default value is never consulted there. -/
def scoreOf (p : Profile) : Rat := p.score?.getD 0

/-- The deduplication loop of `validate_and_rank`
(`agents/validate_rank.py` lines 3–9): walk the input in order, read
`p['name']` unconditionally (a missing `name` key raises `KeyError`),
skip records whose name was already seen, and otherwise record the
name, set `p['score'] = 1.0`, and keep the record.  `seen` is the
`seen` set (as a list of names) and `acc` the `unique` list in reverse
order. -/
def dedupByNameLoop : List Profile → List String → List Profile → Except PyExc (List Profile)
  | [], _, acc => .ok acc.reverse
  | p :: ps, seen, acc =>
    match p.name? with
    | none => .error .keyError
    | some n =>
      if n ∈ seen then dedupByNameLoop ps seen acc
      else dedupByNameLoop ps (n :: seen) (setScore 1 p :: acc)

/-- Insert `p` into a list sorted by descending `score`, after every
element whose score is not strictly smaller.  This is the insertion
step of a stable descending sort, matching the behaviour of Python
`sorted(..., key=lambda x: x['score'], reverse=True)` on the
deduplicated list (Python sort is stable; stable sorts by the same key
order coincide). -/
def insertByScoreDesc (p : Profile) : List Profile → List Profile
  | [] => [p]
  | q :: qs => if scoreOf q < scoreOf p then p :: q :: qs else q :: insertByScoreDesc p qs

/-- Stable descending sort by the `score` key: insert the elements
left to right. -/
def sortByScoreDesc (l : List Profile) : List Profile :=
  l.foldl (fun acc p => insertByScoreDesc p acc) []

/-- `validate_and_rank(profiles, goal, company_info)` from
`agents/validate_rank.py`: deduplicate by exact `name`, set each kept
record's `score` to the placeholder `1.0`, and return the kept records
sorted by `score`, highest first (stable).  The `goal` and
`company_info` arguments are unused by the source, and kept here for
the signature. -/
def validate_and_rank (profiles : List Profile) (goal companyInfo : String) :
    Except PyExc (List Profile) :=
  (dedupByNameLoop profiles [] []).map sortByScoreDesc

/-- Specification-level restatement of the dedup loop (used to state
the amended dedup claim): keep the first occurrence of each exact
`name`, with only the `score` field overwritten; later records with an
already-seen name are dropped entirely.  Records without a `name` key
are skipped (this function is only compared with the code on inputs
where every record has a name). -/
def keptByFirstName : List Profile → List String → List Profile
  | [], _ => []
  | p :: ps, seen =>
    match p.name? with
    | none => keptByFirstName ps seen
    | some n =>
      if n ∈ seen then keptByFirstName ps seen
      else setScore 1 p :: keptByFirstName ps (n :: seen)

/-- Split a lower-cased character stream into maximal space-free
words (`cur` holds the current word, reversed). -/
def wordsAux : List Char → List Char → List String
  | [], cur => if cur.isEmpty then [] else [String.mk cur.reverse]
  | c :: cs, cur =>
    if c = ' ' then
      if cur.isEmpty then wordsAux cs [] else String.mk cur.reverse :: wordsAux cs []
    else wordsAux cs (c :: cur)

/-- Join words with single spaces. -/
def joinWords : List String → String
  | [] => ""
  | [w] => w
  | w :: ws => w ++ " " ++ joinWords ws

/-- Name normalisation as the spec words it: case-insensitive and
whitespace-collapsed. -/
def normalizeName (s : String) : String :=
  joinWords (wordsAux (s.toList.map Char.toLower) [])

/-- Identity key exactly as claim C4 words it, second half: fall back
from a profile URL to the normalised full name. -/
def claimKeyFromUrl (p : Profile) : String :=
  match p.linkedin with
  | some u => if u = "" then normalizeName ((p.name?).getD "") else u
  | none => normalizeName ((p.name?).getD "")

/-- Identity key exactly as claim C4 words it: prefer a non-empty
social/professional handle or profile URL; else the normalised full
name. -/
def claimIdentityKey (p : Profile) : String :=
  match p.xHandle with
  | some h => if h = "" then claimKeyFromUrl p else h
  | none => claimKeyFromUrl p

/-- A row of the `social_tokens` table (`user_auth.py`,
`init_database`): autoincrement primary key `id`, no UNIQUE constraint
on any other column.  `expiresAt` and `createdAt` are timestamps
modelled as natural numbers. -/
structure TokenRow where
  id : Nat
  userId : String
  platform : String
  accessToken : Option String
  refreshToken : Option String
  expiresAt : Option Nat
  tokenData : String
  createdAt : Nat
deriving DecidableEq, Repr

/-- A row of the `api_usage` table (`user_auth.py`, `init_database`):
autoincrement primary key `id`, no UNIQUE constraint on any other
column.  `date` is a day number. -/
structure UsageRow where
  id : Nat
  userId : String
  platform : String
  endpoint : String
  usageCount : Nat
  date : Nat
deriving DecidableEq, Repr

/-- The SQLite database state used by `UserAuthManager` (the `users`
table is not needed by the claims). -/
structure Db where
  nextTokenId : Nat := 1
  socialTokens : List TokenRow := []
  nextUsageId : Nat := 1
  apiUsage : List UsageRow := []
deriving DecidableEq, Repr

/-- The payload dictionary handed to `store_social_token`: the
`access_token` / `refresh_token` / `expires_in` keys it reads, plus
the opaque `json.dumps(token_data)` text. -/
structure TokenPayload where
  accessToken : Option String := none
  refreshToken : Option String := none
  expiresIn : Option Nat := none
  raw : String := ""
deriving DecidableEq, Repr

/-- The dictionary returned by a successful `get_user_token`
(`user_auth.py` lines 133–138). -/
structure TokenDict where
  accessToken : Option String
  refreshToken : Option String
  expiresAt : Option Nat
  tokenData : String
deriving DecidableEq, Repr

/-- `store_social_token(user_id, platform, token_data)` (`user_auth.py`
lines 78–102).  The statement is `INSERT OR REPLACE INTO social_tokens
(user_id, platform, access_token, refresh_token, expires_at,
token_data) VALUES (...)`; since the schema declares no UNIQUE
constraint other than the autoincrement `id`, and the `VALUES` list
leaves `id` NULL so a fresh id is assigned, no conflict can arise and
the statement behaves as a plain `INSERT`: it appends a new row.
`expires_at` is `now + expires_in` when the payload has `expires_in`,
else NULL. -/
def store_social_token (now : Nat) (userId platform : String) (payload : TokenPayload)
    (db : Db) : Db :=
  let expiresAt := payload.expiresIn.map (fun s => now + s)
  { db with
    nextTokenId := db.nextTokenId + 1,
    socialTokens := db.socialTokens ++
      [⟨db.nextTokenId, userId, platform, payload.accessToken, payload.refreshToken,
        expiresAt, payload.raw, now⟩] }

/-- The `SELECT ... WHERE user_id = ? AND platform = ? ORDER BY
created_at DESC LIMIT 1` of `get_user_token`: the stored row for the
key with the greatest `created_at` (later-inserted row preferred on a
timestamp tie, matching the scan order SQLite produces for this
table). -/
def latestTokenRow (db : Db) (userId platform : String) : Option TokenRow :=
  (db.socialTokens.filter (fun r => r.userId == userId && r.platform == platform)).foldl
    (fun acc r =>
      match acc with
      | none => some r
      | some a => if a.createdAt ≤ r.createdAt then some r else some a)
    none

/-- `refresh_token(user_id, platform, refresh_token)` (`user_auth.py`
lines 140–160): dispatches on the platform, but both
`_refresh_twitter_token` and `_refresh_linkedin_token` unconditionally
return `None` (token refresh is not used with the simple
profile-connection approach), and any other platform returns `None`
directly.  No database write happens on any path. -/
def refresh_token (userId platform : String) (refreshTok : Option String) :
    Option TokenDict :=
  if platform = "twitter" then none
  else if platform = "linkedin" then none
  else none

/-- `get_user_token(user_id, platform)` (`user_auth.py` lines
104–138).  Returns the token dictionary, the database after the call,
and whether a refresh was attempted.  The source performs no write on
any path (in particular it never deletes the stored row), so the
returned database is the input database.  If the newest row for the
key has an expiry in the past, exactly one `refresh_token` call is
made; since that returns `None`, the function returns `None`. -/
def get_user_token (db : Db) (now : Nat) (userId platform : String) :
    Option TokenDict × Db × Bool :=
  match latestTokenRow db userId platform with
  | none => (none, db, false)
  | some row =>
    match row.expiresAt with
    | some t =>
      if t < now then
        match refresh_token userId platform row.refreshToken with
        | some refreshed => (some refreshed, db, true)
        | none => (none, db, true)
      else (some ⟨row.accessToken, row.refreshToken, row.expiresAt, row.tokenData⟩, db, false)
    | none => (some ⟨row.accessToken, row.refreshToken, row.expiresAt, row.tokenData⟩, db, false)

/-- `track_api_usage(user_id, platform, endpoint)` (`user_auth.py`
lines 162–179).  First statement: `INSERT OR IGNORE INTO api_usage
(user_id, platform, endpoint, usage_count, date) VALUES (?, ?, ?, 1,
date('now'))` — the schema has no UNIQUE constraint besides the
autoincrement `id`, so no conflict can arise and a fresh row with
count 1 is always inserted.  Second statement: `UPDATE api_usage SET
usage_count = usage_count + 1 WHERE user_id = ? AND platform = ? AND
endpoint = ? AND date = date('now')` — increments every row matching
the key, including the row just inserted. -/
def track_api_usage (today : Nat) (userId platform endpoint : String) (db : Db) : Db :=
  let inserted := db.apiUsage ++ [⟨db.nextUsageId, userId, platform, endpoint, 1, today⟩]
  { db with
    nextUsageId := db.nextUsageId + 1,
    apiUsage := inserted.map (fun r =>
      if r.userId == userId && r.platform == platform &&
         r.endpoint == endpoint && r.date == today
      then { r with usageCount := r.usageCount + 1 }
      else r) }

/-- The endpoints occurring in a row list, in first-occurrence order
(the `GROUP BY endpoint` grouping keys). -/
def endpointsOf (rows : List UsageRow) : List String :=
  rows.foldl (fun acc r => if r.endpoint ∈ acc then acc else acc ++ [r.endpoint]) []

/-- `get_user_usage(user_id, platform, days)` (`user_auth.py` lines
181–197): `SELECT endpoint, SUM(usage_count) FROM api_usage WHERE
user_id = ? AND platform = ? AND date >= date('now','-N days') GROUP
BY endpoint`, returned as an endpoint-to-total association (the Python
code builds a dict from the grouped rows). -/
def get_user_usage (db : Db) (today : Nat) (userId platform : String) (days : Nat) :
    List (String × Nat) :=
  let rows := db.apiUsage.filter (fun r =>
    r.userId == userId && r.platform == platform && decide (today - days ≤ r.date))
  (endpointsOf rows).map (fun e =>
    (e, (rows.filter (fun r => r.endpoint == e)).foldl (fun s r => s + r.usageCount) 0))

/-- The `API_STRATEGY` dictionary of `config.py`. -/
def API_STRATEGY : List (String × String) :=
  [("email_scout", "shared"), ("x_scout", "hybrid"),
   ("internet_scout", "shared"), ("linkedin_scout", "hybrid")]

/-- The strategy-3 mock profile of `agents/linkedin_scout.py` lines
35–43. -/
def linkedinMockProfile : Profile :=
  { name? := some "Bob LinkedIn", title := some "VP Sales",
    company := some "VoiceAI Corp",
    linkedin := some "https://linkedin.com/in/boblinkedin",
    source? := some "linkedin_scout_mock" }

/-- The strategy-3 mock profile of `agents/x_scout.py` lines 35–43. -/
def xMockProfile : Profile :=
  { name? := some "Alice X", title := some "Tech Lead",
    company := some "ChatVoice", xHandle := some "@alicex",
    source? := some "x_scout_mock" }

/-- The mock profile of `agents/email_scout.py` lines 17–25. -/
def emailMockProfile : Profile :=
  { name? := some "John Doe", title := some "Founder",
    company := some "TechStart",
    linkedin := some "https://linkedin.com/in/johndoe",
    xHandle := some "@johndoe", source? := some "email_scout_mock" }

/-- The mock profile of `agents/internet_scout.py` lines 17–25. -/
def internetMockProfile : Profile :=
  { name? := some "Charlie Web", title := some "CTO",
    company := some "WebVoice", xHandle := some "@charlieweb",
    source? := some "internet_scout_mock" }

/-- The `_fallback_linkedin_scout` mock of
`agents/linkedin_scout_real.py` lines 260–275. -/
def linkedinRealFallbackProfile : Profile :=
  { name? := some "LinkedIn Professional", title := some "Senior Executive",
    company := some "Tech Startup",
    linkedin := some "https://linkedin.com/in/professional",
    source? := some "fallback" }

/-- The mock-data fallback of `agents/linkedin_scout_enhanced.py`
lines 185–196. -/
def linkedinEnhMockProfile : Profile :=
  { name? := some "LinkedIn Professional", title := some "Senior Executive",
    company := some "Tech Startup",
    linkedin := some "https://linkedin.com/in/professional",
    source? := some "fallback", confidence := some (3 / 10) }

/-- The mock-data fallback of `agents/x_scout_enhanced.py` lines
303–315. -/
def xEnhMockProfile : Profile :=
  { name? := some "Twitter User", title := some "Professional",
    company := some "Tech Company", xHandle := some "@twitteruser",
    source? := some "fallback", confidence := some (3 / 10) }

/-- External outcome of the PhantomBuster interaction inside
`linkedin_scout_real.linkedin_scout` (`agents/linkedin_scout_real.py`
lines 16–39): the phantom launch can fail (`_launch...` returns
`None`), any exception inside the `try` is caught by the top-level
`except Exception`, or the phantom completes with a list of converted
profile rows (possibly empty: `_wait_for_phantom_results` yielding no
rows hits the `if not results: return []` branch, folded here into
`results []`). -/
inductive PhantomOutcome where
  | launchFail
  | exc
  | results (rs : List Profile)
deriving DecidableEq, Repr

/-- `linkedin_scout_real.linkedin_scout(query)`
(`agents/linkedin_scout_real.py` lines 7–39): without a PhantomBuster
key, or on launch failure, or on any exception, return the fallback
mock; with an empty result set return the empty list (line 29); else
return the first five converted profiles.  Every path returns — the
whole body after the key check sits in `try ... except Exception`. -/
def linkedin_scout_real (pbKeyConfigured : Bool) (out : PhantomOutcome) : List Profile :=
  if !pbKeyConfigured then [linkedinRealFallbackProfile]
  else
    match out with
    | .launchFail => [linkedinRealFallbackProfile]
    | .exc => [linkedinRealFallbackProfile]
    | .results rs => if rs.isEmpty then [] else rs.take 5

/-- The `_fallback_x_scout` mock result of `agents/x_scout_real.py`
(one fixed profile, like the other fallbacks; its exact fields are
irrelevant to the claims). -/
def xRealFallbackProfile : Profile :=
  { name? := some "X Professional", source? := some "fallback" }

/-- `x_scout_real.x_scout(query)` (`agents/x_scout_real.py` lines
7–35): without a bearer token, or on any exception (top-level `except
Exception`), return the fallback mock; else return the first five of
the deduplicated user/tweet search results (`found`), which may be
empty. -/
def x_scout_real (bearerConfigured : Bool) (excRaised : Bool) (found : List Profile) :
    List Profile :=
  if !bearerConfigured then [xRealFallbackProfile]
  else if excRaised then [xRealFallbackProfile]
  else found.take 5

/-- External state consumed by an enhanced (OAuth) scout
(`agents/linkedin_scout_enhanced.py`, `agents/x_scout_enhanced.py`):
the token its own `get_user_token` call returns, the profile list its
`_search_with_user_token` accumulates (that helper wraps every outward
call in `try ... except Exception` and returns the accumulated list,
so it is total), and whether the shared backend key is configured,
plus the shared-search accumulation used by the x-scout fallback
(same totality argument). -/
structure EnhancedEnv where
  innerToken : Option TokenDict
  searchProfiles : List Profile
  backendKeyConfigured : Bool
  sharedSearchProfiles : List Profile
deriving DecidableEq, Repr

/-- `_fallback_linkedin_search` (`agents/linkedin_scout_enhanced.py`
lines 178–196): with a PhantomBuster key configured it calls
`_phantombuster_search`, which returns `[]` (not implemented); else
the one mock profile. -/
def linkedinEnhFallback (env : EnhancedEnv) : List Profile :=
  if env.backendKeyConfigured then [] else [linkedinEnhMockProfile]

/-- `linkedin_scout_enhanced(query, user_id)`
(`agents/linkedin_scout_enhanced.py` lines 8–29): with a user id and a
token, return the user-token search results if non-empty, else the
fallback; otherwise the fallback.  Total: every callee returns a
list. -/
def linkedin_scout_enhanced (env : EnhancedEnv) (userIdPresent : Bool) : List Profile :=
  if userIdPresent then
    match env.innerToken with
    | some _ =>
      if !env.searchProfiles.isEmpty then env.searchProfiles else linkedinEnhFallback env
    | none => linkedinEnhFallback env
  else linkedinEnhFallback env

/-- `_fallback_twitter_search` (`agents/x_scout_enhanced.py` lines
297–315): with a shared bearer token, the shared-API search
accumulation (total by its `try ... except Exception`); else the one
mock profile. -/
def xEnhFallback (env : EnhancedEnv) : List Profile :=
  if env.backendKeyConfigured then env.sharedSearchProfiles else [xEnhMockProfile]

/-- `x_scout_enhanced(query, user_id)` (`agents/x_scout_enhanced.py`
lines 9–31): same shape as the LinkedIn enhanced scout. -/
def x_scout_enhanced (env : EnhancedEnv) (userIdPresent : Bool) : List Profile :=
  if userIdPresent then
    match env.innerToken with
    | some _ =>
      if !env.searchProfiles.isEmpty then env.searchProfiles else xEnhFallback env
    | none => xEnhFallback env
  else xEnhFallback env

/-- External state consumed by a hybrid scout entry point: the
`auth_manager.get_user_token` result, whether each optional backend
module imports (a failed import raises `ImportError`, the only
exception the entry point catches), and the lists returned by the
enhanced and shared backends (both total, see above). -/
structure HybridEnv where
  userToken : Option TokenDict
  enhancedImportable : Bool
  enhancedProfiles : List Profile
  realImportable : Bool
  realProfiles : List Profile
deriving DecidableEq, Repr

/-- Which fallback tiers a scout call actually invoked
(authenticated-user backend called, shared backend called, offline
mock used), for stating the tier short-circuit property. -/
structure ScoutTrace where
  authCalled : Bool
  sharedCalled : Bool
  offlineUsed : Bool
deriving DecidableEq, Repr

/-- The hybrid scout entry-point algorithm shared by
`agents/linkedin_scout.py` and `agents/x_scout.py` (lines 4–43 of
each, identical up to platform names):

* Strategy 1 — if a user id was passed and the configured strategy is
  `hybrid`, look up the user token; if present, import the enhanced
  module (an `ImportError` is caught by `except ImportError: pass`),
  track usage, call it, and return its result if it is non-empty and
  some profile carries the tier's OAuth `source` tag; otherwise fall
  through.
* Strategy 2 — import the shared backend (`except ImportError: pass`)
  and return its result unconditionally.
* Strategy 3 — return the fixed one-element mock list.

The result is paired with the trace of invoked tiers.  No path raises:
the two imports are the only raise sites and both are caught, and the
backends are total (their sources catch `Exception` at top level). -/
def authTierResult (oauthTag : String) (strategyIsHybrid : Bool)
    (env : HybridEnv) (userId : Option String) : Option (List Profile) × Bool :=
  if userId.isSome && strategyIsHybrid then
    match env.userToken with
    | some _ =>
      if env.enhancedImportable then
        if !env.enhancedProfiles.isEmpty &&
           env.enhancedProfiles.any (fun p => p.source? == some oauthTag)
        then (some env.enhancedProfiles, true)
        else (none, true)
      else (none, false)
    | none => (none, false)
  else (none, false)

/-- See the doc comment above `authTierResult`: `authTierResult` is
strategy 1 (returning the short-circuit result, if any, and whether the
enhanced backend was called), and `hybridScout` completes the entry
point with strategies 2 and 3. -/
def hybridScout (oauthTag : String) (strategyIsHybrid : Bool) (mock : Profile)
    (env : HybridEnv) (userId : Option String) :
    Except PyExc (List Profile) × ScoutTrace :=
  match authTierResult oauthTag strategyIsHybrid env userId with
  | (some ps, a) => (.ok ps, ⟨a, false, false⟩)
  | (none, a) =>
    if env.realImportable then (.ok env.realProfiles, ⟨a, true, false⟩)
    else (.ok [mock], ⟨a, false, true⟩)

/-- `linkedin_scout(query, user_id)` (`agents/linkedin_scout.py`):
the hybrid entry point with the `linkedin_oauth` provenance tag, the
LinkedIn enhanced and PhantomBuster backends, and the LinkedIn mock. -/
def linkedin_scout (tok : Option TokenDict) (enhImportable : Bool) (enhEnv : EnhancedEnv)
    (realImportable pbKeyConfigured : Bool) (phantom : PhantomOutcome)
    (userId : Option String) : Except PyExc (List Profile) × ScoutTrace :=
  hybridScout "linkedin_oauth" (List.lookup "linkedin_scout" API_STRATEGY == some "hybrid")
    linkedinMockProfile
    ⟨tok, enhImportable, linkedin_scout_enhanced enhEnv userId.isSome,
     realImportable, linkedin_scout_real pbKeyConfigured phantom⟩
    userId

/-- `x_scout(query, user_id)` (`agents/x_scout.py`): the hybrid entry
point with the `twitter_oauth` provenance tag, the X enhanced and
shared-API backends, and the X mock. -/
def x_scout (tok : Option TokenDict) (enhImportable : Bool) (enhEnv : EnhancedEnv)
    (realImportable bearerConfigured realExcRaised : Bool) (realFound : List Profile)
    (userId : Option String) : Except PyExc (List Profile) × ScoutTrace :=
  hybridScout "twitter_oauth" (List.lookup "x_scout" API_STRATEGY == some "hybrid")
    xMockProfile
    ⟨tok, enhImportable, x_scout_enhanced enhEnv userId.isSome,
     realImportable, x_scout_real bearerConfigured realExcRaised realFound⟩
    userId

/-- The always-shared scout entry-point algorithm of
`agents/email_scout.py` and `agents/internet_scout.py`: if the
configured strategy is `shared`, import the real backend (`except
ImportError: pass`) and return its result; otherwise (or on import
failure) the fixed one-element mock list.  The real backends
(`email_scout_real.scout_from_email`,
`internet_scout_real.internet_scout`) catch `Exception` at top level,
so their result is an arbitrary list supplied by the environment. -/
def sharedScout (strategyIsShared : Bool) (mock : Profile)
    (realImportable : Bool) (realProfiles : List Profile) :
    Except PyExc (List Profile) × ScoutTrace :=
  if strategyIsShared then
    if realImportable then (.ok realProfiles, ⟨false, true, false⟩)
    else (.ok [mock], ⟨false, false, true⟩)
  else (.ok [mock], ⟨false, false, true⟩)

/-- `scout_from_email(email, user_id)` (`agents/email_scout.py`). -/
def scout_from_email (realImportable : Bool) (realProfiles : List Profile) :
    Except PyExc (List Profile) × ScoutTrace :=
  sharedScout (List.lookup "email_scout" API_STRATEGY == some "shared")
    emailMockProfile realImportable realProfiles

/-- `internet_scout(query, user_id)` (`agents/internet_scout.py`). -/
def internet_scout (realImportable : Bool) (realProfiles : List Profile) :
    Except PyExc (List Profile) × ScoutTrace :=
  sharedScout (List.lookup "internet_scout" API_STRATEGY == some "shared")
    internetMockProfile realImportable realProfiles

/-- One dispatched `(source, query)` scout call of the fan-out stage
of `lead_discovery` (`app.py` lines 68–101), together with its outcome
(a profile list, or a raised exception). -/
structure ScoutCall where
  source : String
  query : String
  result : Except PyExc (List Profile)
deriving Repr

/-- Display form of an exception, standing for Python `str(e)`. -/
def pyExcStr : PyExc → String
  | .importError => "ImportError"
  | .keyError => "KeyError"
  | .runtimeError => "RuntimeError"

/-- The warning recorded when one scout call raises: `errors.append(
f"... scout failed for query ...")` (`app.py` lines 77, 85, 93, 101 —
keyed by source and query). -/
def scoutFailWarning (source query : String) (e : PyExc) : String :=
  source ++ " scout failed for query " ++ query ++ ": " ++ pyExcStr e

/-- The fan-out loops of `app.py` lines 68–101: each call sits in its
own `try`/`except Exception`; a success extends `profiles`, a raise
appends one warning to `errors`, and either way the loop continues
with the remaining calls. -/
def runScoutCalls (calls : List ScoutCall) : List Profile × List String :=
  calls.foldl
    (fun acc c =>
      match c.result with
      | .ok ps => (acc.1 ++ ps, acc.2)
      | .error e => (acc.1, acc.2 ++ [scoutFailWarning c.source c.query e]))
    ([], [])

/-- `p['message'] = m` on a profile dict. -/
def setMessage (m : String) (p : Profile) : Profile := { p with message := some m }

/-- The deterministic fallback message substituted when
`generate_message` raises (`app.py` line 125). -/
def fallbackMessage (p : Profile) (goal companyInfo : String) : String :=
  "Hi " ++ (p.name?).getD "" ++ ", connect regarding " ++ goal ++ ". - " ++ companyInfo

/-- The warning appended when `generate_message` raises for one
profile (`app.py` line 126). -/
def msgFailWarning (p : Profile) : String :=
  "Message generation failed for " ++ (p.name?).getD "unknown"

/-- The message-generation loop of `app.py` lines 120–126: isolated
per profile; a failure substitutes the deterministic fallback message
for that profile only and appends a warning. -/
def enrichProfiles (msgGen : Profile → Except PyExc String) (goal companyInfo : String) :
    List Profile → List String → List Profile × List String
  | [], errors => ([], errors)
  | p :: ps, errors =>
    match msgGen p with
    | .ok m =>
      let rest := enrichProfiles msgGen goal companyInfo ps errors
      (setMessage m p :: rest.1, rest.2)
    | .error _ =>
      let rest :=
        enrichProfiles msgGen goal companyInfo ps (errors ++ [msgFailWarning p])
      (setMessage (fallbackMessage p goal companyInfo) p :: rest.1, rest.2)

/-- The HTTP response of `lead_discovery` after the fan-out stage:
the no-profiles 200 response (`app.py` lines 103–109, whose error list
is the `errors` key of that payload), the normal 200 response (lines
128–138, with the `warnings` key present exactly when `errors` is
non-empty), or the 500 response produced when `validate_and_rank`
raises (lines 112–117). -/
inductive DiscoveryOutcome where
  | noProfiles (errors : List String)
  | success (profiles : List Profile) (totalFound returned : Nat)
      (warnings : Option (List String))
  | serverError
deriving DecidableEq, Repr

/-- Stages 2–4 of `lead_discovery` (`app.py` lines 68–138): run the
fan-out calls, return the no-profiles response if nothing was
collected, else deduplicate and rank (a raise there is the 500 path),
truncate to the target `n`, generate messages, and assemble the
response with `total_found` the pre-truncation count and `returned`
the truncated count. -/
def lead_discovery_core (msgGen : Profile → Except PyExc String)
    (goal companyInfo : String) (n : Nat) (calls : List ScoutCall) : DiscoveryOutcome :=
  let fanned := runScoutCalls calls
  if fanned.1.isEmpty then .noProfiles fanned.2
  else
    match validate_and_rank fanned.1 goal companyInfo with
    | .error _ => .serverError
    | .ok unique =>
      let top := unique.take n
      let enriched := enrichProfiles msgGen goal companyInfo top fanned.2
      .success enriched.1 fanned.1.length top.length
        (if enriched.2.isEmpty then none else some enriched.2)

/-! ### Lemmas about deduplication and ranking -/

lemma mem_insertByScoreDesc {x p : Profile} {l : List Profile} :
    x ∈ insertByScoreDesc p l ↔ x = p ∨ x ∈ l := by
  induction l with
  | nil => simp [insertByScoreDesc]
  | cons q qs ih =>
    simp only [insertByScoreDesc]
    split
    · simp [List.mem_cons]
    · simp [List.mem_cons, ih]
      tauto

lemma insertByScoreDesc_pairwise {p : Profile} {l : List Profile}
    (h : l.Pairwise (fun a b => scoreOf b ≤ scoreOf a)) :
    (insertByScoreDesc p l).Pairwise (fun a b => scoreOf b ≤ scoreOf a) := by
  induction l with
  | nil => simp [insertByScoreDesc]
  | cons q qs ih =>
    rw [List.pairwise_cons] at h
    obtain ⟨hq, hqs⟩ := h
    simp only [insertByScoreDesc]
    split
    · rename_i hlt
      refine List.pairwise_cons.mpr ⟨?_, List.pairwise_cons.mpr ⟨hq, hqs⟩⟩
      intro b hb
      rcases List.mem_cons.mp hb with rfl | hb'
      · exact le_of_lt hlt
      · exact le_trans (hq b hb') (le_of_lt hlt)
    · rename_i hnlt
      refine List.pairwise_cons.mpr ⟨?_, ih hqs⟩
      intro b hb
      rcases mem_insertByScoreDesc.mp hb with rfl | hb'
      · exact le_of_not_lt hnlt
      · exact hq b hb'

lemma sortByScoreDesc_go_pairwise (l acc : List Profile)
    (hacc : acc.Pairwise (fun a b => scoreOf b ≤ scoreOf a)) :
    (l.foldl (fun acc p => insertByScoreDesc p acc) acc).Pairwise
      (fun a b => scoreOf b ≤ scoreOf a) := by
  induction l generalizing acc with
  | nil => simpa using hacc
  | cons p ps ih => exact ih _ (insertByScoreDesc_pairwise hacc)

/-- The code's ranking step really sorts: its output is descending in
the `score` key. -/
lemma sortByScoreDesc_pairwise (l : List Profile) :
    (sortByScoreDesc l).Pairwise (fun a b => scoreOf b ≤ scoreOf a) :=
  sortByScoreDesc_go_pairwise l [] (by simp)

lemma insertByScoreDesc_filter_eq {c : Rat} {p : Profile} {l : List Profile}
    (hsort : l.Pairwise (fun a b => scoreOf b ≤ scoreOf a)) (hp : scoreOf p = c) :
    (insertByScoreDesc p l).filter (fun q => decide (scoreOf q = c)) =
      l.filter (fun q => decide (scoreOf q = c)) ++ [p] := by
  induction l with
  | nil => simp [insertByScoreDesc, hp]
  | cons q qs ih =>
    rw [List.pairwise_cons] at hsort
    obtain ⟨hq, hqs⟩ := hsort
    simp only [insertByScoreDesc]
    split
    · rename_i hlt
      have hfil : (q :: qs).filter (fun b => decide (scoreOf b = c)) = [] := by
        rw [List.filter_eq_nil_iff]
        intro b hb
        simp only [decide_eq_true_eq]
        intro hbc
        rcases List.mem_cons.mp hb with rfl | hb'
        · rw [hbc, hp] at hlt
          exact lt_irrefl c hlt
        · have h2 : c ≤ scoreOf q := hbc ▸ hq b hb'
          have h3 : scoreOf q < c := hp ▸ hlt
          exact absurd (lt_of_le_of_lt h2 h3) (lt_irrefl c)
      rw [List.filter_cons, if_pos (by simp [hp]), hfil]
      simp
    · rename_i hnlt
      rw [List.filter_cons, List.filter_cons, ih hqs]
      split
      · simp
      · simp

lemma insertByScoreDesc_filter_ne {c : Rat} {p : Profile} {l : List Profile}
    (hp : scoreOf p ≠ c) :
    (insertByScoreDesc p l).filter (fun q => decide (scoreOf q = c)) =
      l.filter (fun q => decide (scoreOf q = c)) := by
  induction l with
  | nil => simp [insertByScoreDesc, hp]
  | cons q qs ih =>
    simp only [insertByScoreDesc]
    split
    · rw [List.filter_cons, if_neg (by simp [hp])]
    · rw [List.filter_cons, List.filter_cons, ih]

lemma foldl_insert_filter (c : Rat) (l acc : List Profile)
    (hacc : acc.Pairwise (fun a b => scoreOf b ≤ scoreOf a)) :
    (l.foldl (fun acc p => insertByScoreDesc p acc) acc).filter
        (fun q => decide (scoreOf q = c)) =
      acc.filter (fun q => decide (scoreOf q = c)) ++
        l.filter (fun q => decide (scoreOf q = c)) := by
  induction l generalizing acc with
  | nil => simp
  | cons p ps ih =>
    rw [List.foldl_cons, ih _ (insertByScoreDesc_pairwise hacc)]
    by_cases hp : scoreOf p = c
    · rw [insertByScoreDesc_filter_eq hacc hp, List.filter_cons, if_pos (by simp [hp])]
      simp
    · rw [insertByScoreDesc_filter_ne hp, List.filter_cons, if_neg (by simp [hp])]

/-- The code's ranking step is a stable sort: for every score value,
the sublist of records carrying that score is preserved verbatim (in
particular, ties keep their arrival order). -/
lemma sortByScoreDesc_stable (l : List Profile) (c : Rat) :
    (sortByScoreDesc l).filter (fun q => decide (scoreOf q = c)) =
      l.filter (fun q => decide (scoreOf q = c)) := by
  have h := foldl_insert_filter c l [] (by simp)
  simpa [sortByScoreDesc] using h

lemma insertByScoreDesc_const {c : Rat} {p : Profile} {l : List Profile}
    (hl : ∀ q ∈ l, scoreOf q = c) (hp : scoreOf p = c) :
    insertByScoreDesc p l = l ++ [p] := by
  induction l with
  | nil => rfl
  | cons q qs ih =>
    have hq := hl q (by simp)
    simp only [insertByScoreDesc]
    rw [hq, hp, if_neg (lt_irrefl c), ih (fun r hr => hl r (by simp [hr]))]
    simp

lemma foldl_insert_const (c : Rat) (l acc : List Profile)
    (hacc : ∀ q ∈ acc, scoreOf q = c) (hl : ∀ q ∈ l, scoreOf q = c) :
    l.foldl (fun acc p => insertByScoreDesc p acc) acc = acc ++ l := by
  induction l generalizing acc with
  | nil => simp
  | cons p ps ih =>
    rw [List.foldl_cons, insertByScoreDesc_const hacc (hl p (by simp))]
    rw [ih (acc ++ [p]) ?_ (fun r hr => hl r (by simp [hr]))]
    · simp
    · intro q hq
      rcases List.mem_append.mp hq with h | h
      · exact hacc q h
      · rw [List.mem_singleton.mp h]
        exact hl p (by simp)

/-- When every record has the same score, the stable sort is the
identity. -/
lemma sortByScoreDesc_const (c : Rat) (l : List Profile)
    (hl : ∀ q ∈ l, scoreOf q = c) : sortByScoreDesc l = l := by
  have h := foldl_insert_const c l [] (by simp) hl
  simpa [sortByScoreDesc] using h

lemma dedupByNameLoop_eq_kept (ps : List Profile) (seen : List String) (acc : List Profile)
    (h : ∀ p ∈ ps, (p.name?).isSome) :
    dedupByNameLoop ps seen acc = .ok (acc.reverse ++ keptByFirstName ps seen) := by
  induction ps generalizing seen acc with
  | nil => simp [dedupByNameLoop, keptByFirstName]
  | cons p ps ih =>
    have hp := h p (by simp)
    cases hn : p.name? with
    | none => rw [hn] at hp; simp at hp
    | some n =>
      simp only [dedupByNameLoop, keptByFirstName, hn]
      by_cases hmem : n ∈ seen
      · rw [if_pos hmem, if_pos hmem]
        exact ih seen acc (fun q hq => h q (by simp [hq]))
      · rw [if_neg hmem, if_neg hmem,
          ih (n :: seen) (setScore 1 p :: acc) (fun q hq => h q (by simp [hq]))]
        simp

lemma keptByFirstName_score (ps : List Profile) (seen : List String) :
    ∀ q ∈ keptByFirstName ps seen, q.score? = some 1 := by
  induction ps generalizing seen with
  | nil => simp [keptByFirstName]
  | cons p ps ih =>
    intro q hq
    cases hn : p.name? with
    | none =>
      simp only [keptByFirstName, hn] at hq
      exact ih seen q hq
    | some n =>
      simp only [keptByFirstName, hn] at hq
      by_cases hmem : n ∈ seen
      · rw [if_pos hmem] at hq
        exact ih seen q hq
      · rw [if_neg hmem] at hq
        rcases List.mem_cons.mp hq with rfl | hq'
        · rfl
        · exact ih (n :: seen) q hq'

lemma keptByFirstName_mem (ps : List Profile) (seen : List String) :
    ∀ q ∈ keptByFirstName ps seen, ∃ p, p ∈ ps ∧ q = setScore 1 p := by
  induction ps generalizing seen with
  | nil => simp [keptByFirstName]
  | cons p ps ih =>
    intro q hq
    cases hn : p.name? with
    | none =>
      simp only [keptByFirstName, hn] at hq
      obtain ⟨p0, hp0, h0⟩ := ih seen q hq
      exact ⟨p0, by simp [hp0], h0⟩
    | some n =>
      simp only [keptByFirstName, hn] at hq
      by_cases hmem : n ∈ seen
      · rw [if_pos hmem] at hq
        obtain ⟨p0, hp0, h0⟩ := ih seen q hq
        exact ⟨p0, by simp [hp0], h0⟩
      · rw [if_neg hmem] at hq
        rcases List.mem_cons.mp hq with rfl | hq'
        · exact ⟨p, by simp, rfl⟩
        · obtain ⟨p0, hp0, h0⟩ := ih (n :: seen) q hq'
          exact ⟨p0, by simp [hp0], h0⟩

/-- On inputs where every record carries a `name`, `validate_and_rank`
computes exactly the first-wins-by-exact-name deduplication: the final
sort is the identity because every kept record was just given the same
placeholder score. -/
lemma validate_and_rank_eq_kept (ps : List Profile) (goal ci : String)
    (h : ∀ p ∈ ps, (p.name?).isSome) :
    validate_and_rank ps goal ci = .ok (keptByFirstName ps []) := by
  rw [validate_and_rank, dedupByNameLoop_eq_kept ps [] [] h]
  simp only [Except.map, List.reverse_nil, List.nil_append]
  rw [sortByScoreDesc_const 1 _ ?_]
  intro q hq
  simp [scoreOf, keptByFirstName_score ps [] q hq]

/-! ### Concrete inputs used by counterexamples and witnesses -/

/-- Two records that share the same profile URL (and the same
case-insensitive, whitespace-collapsed full name) but differ in the
exact `name` string. -/
def c4p1 : Profile :=
  { name? := some "John Doe", linkedin := some "https://linkedin.com/in/johndoe" }

/-- See `c4p1`. -/
def c4p2 : Profile :=
  { name? := some "john  doe", linkedin := some "https://linkedin.com/in/johndoe" }

/-- Four distinct-name records arriving with confidence scores
0.5, 0.9, 0.9, 0.1. -/
def c5p1 : Profile := { name? := some "P One", score? := some (1 / 2) }

/-- See `c5p1`. -/
def c5p2 : Profile := { name? := some "P Two", score? := some (9 / 10) }

/-- See `c5p1`. -/
def c5p3 : Profile := { name? := some "P Three", score? := some (9 / 10) }

/-- See `c5p1`. -/
def c5p4 : Profile := { name? := some "P Four", score? := some (1 / 10) }

/-- A profile dictionary with no `name` key. -/
def namelessProfile : Profile := { title := some "CEO" }

/-! ### Claim theorems: deduplication and ranking -/

/-- C4 (counterexample).  The two records `c4p1` and `c4p2` carry the
same identity key in the claim's sense — the same non-empty profile
URL, and also the same normalised full name — yet `validate_and_rank`
keeps both of them (it keys only on the exact `name` string), so the
claimed deduplication by handle/URL or normalised name does not hold
of the code. -/
theorem dedup_identity_key_counterexample :
    claimIdentityKey c4p1 = claimIdentityKey c4p2 ∧
    normalizeName ((c4p1.name?).getD "") = normalizeName ((c4p2.name?).getD "") ∧
    validate_and_rank [c4p1, c4p2] "" "" = .ok [setScore 1 c4p1, setScore 1 c4p2] ∧
    (validate_and_rank [c4p1, c4p2] "" "").map List.length = .ok 2 := by
  refine ⟨by decide, by decide, rfl, rfl⟩

/-- C4 (amended).  Deduplication keys each profile solely by the exact
value of its `name` field — case-sensitively, with whitespace kept,
ignoring handles and profile URLs; among profiles with equal `name`
the first occurrence in traversal order is kept (with only its `score`
field overwritten by the placeholder) and later duplicates are dropped
without merging any of their fields into the kept record — which is
what `keptByFirstName` states. -/
theorem dedup_exact_name_first_wins (ps : List Profile) (goal companyInfo : String)
    (h : ∀ p ∈ ps, (p.name?).isSome) :
    validate_and_rank ps goal companyInfo = .ok (keptByFirstName ps []) :=
  validate_and_rank_eq_kept ps goal companyInfo h

/-- Witness for `dedup_exact_name_first_wins` at a concrete input: a
duplicate exact name is dropped, the first-seen record is kept. -/
theorem dedup_exact_name_first_wins_witness :
    validate_and_rank [c4p1, c4p1, c4p2] "" "" = .ok (keptByFirstName [c4p1, c4p1, c4p2] []) :=
  dedup_exact_name_first_wins [c4p1, c4p1, c4p2] "" "" (by decide)

/-- C5 (counterexample).  Four profiles arriving with confidence
scores [0.5, 0.9, 0.9, 0.1] are not returned in the claimed order
[0.9, 0.9, 0.5, 0.1]: `validate_and_rank` first overwrites every score
with the placeholder 1.0, so the records come back in arrival order
with all scores equal to 1. -/
theorem rank_placeholder_score_counterexample :
    validate_and_rank [c5p1, c5p2, c5p3, c5p4] "" "" =
      .ok [setScore 1 c5p1, setScore 1 c5p2, setScore 1 c5p3, setScore 1 c5p4] ∧
    (validate_and_rank [c5p1, c5p2, c5p3, c5p4] "" "").map (List.map scoreOf) =
      .ok [1, 1, 1, 1] ∧
    ([1, 1, 1, 1] : List Rat) ≠ [9 / 10, 9 / 10, 1 / 2, 1 / 10] := by
  refine ⟨rfl, rfl, ?_⟩
  simp only [ne_eq, List.cons.injEq]
  norm_num

/-- C5 (amended).  The ranking step of `validate_and_rank` is a stable
descending sort by the `score` key — its output is pairwise descending
in `score`, and for every score value the records carrying it keep
their arrival order — but the function first overwrites every score
with the placeholder 1.0, so all records tie and the four profiles
arriving with scores [0.5, 0.9, 0.9, 0.1] are returned in their
original arrival order, each with score 1. -/
theorem rank_stable_sort_constant_score :
    (∀ l : List Profile,
      (sortByScoreDesc l).Pairwise (fun a b => scoreOf b ≤ scoreOf a)) ∧
    (∀ (l : List Profile) (c : Rat),
      (sortByScoreDesc l).filter (fun q => decide (scoreOf q = c)) =
        l.filter (fun q => decide (scoreOf q = c))) ∧
    validate_and_rank [c5p1, c5p2, c5p3, c5p4] "" "" =
      .ok [setScore 1 c5p1, setScore 1 c5p2, setScore 1 c5p3, setScore 1 c5p4] :=
  ⟨sortByScoreDesc_pairwise, sortByScoreDesc_stable, rfl⟩

/-- C10.  `validate_and_rank` reads `p['name']` unconditionally: it
returns a list whenever every input record has a `name` key, and on an
input containing a record without that key it raises `KeyError`. -/
theorem validate_and_rank_requires_name_key :
    (∀ (ps : List Profile) (goal ci : String), (∀ p ∈ ps, (p.name?).isSome) →
      ∃ us, validate_and_rank ps goal ci = .ok us) ∧
    validate_and_rank [namelessProfile] "" "" = .error .keyError :=
  ⟨fun ps goal ci h => ⟨keptByFirstName ps [], validate_and_rank_eq_kept ps goal ci h⟩, rfl⟩

/-- Witness for `validate_and_rank_requires_name_key` at concrete
inputs. -/
theorem validate_and_rank_requires_name_key_witness :
    (∃ us, validate_and_rank [c4p1] "" "" = .ok us) ∧
    validate_and_rank [namelessProfile] "" "" = .error .keyError :=
  ⟨validate_and_rank_requires_name_key.1 [c4p1] "" "" (by decide),
   validate_and_rank_requires_name_key.2⟩

/-! ### Lemmas about the scouts -/

lemma hybridScout_isOk (tag : String) (strat : Bool) (mock : Profile)
    (env : HybridEnv) (uid : Option String) :
    ∃ ps, (hybridScout tag strat mock env uid).1 = .ok ps := by
  unfold hybridScout
  rcases authTierResult tag strat env uid with ⟨o, a⟩
  cases o with
  | some ps => exact ⟨ps, rfl⟩
  | none =>
    cases hr : env.realImportable with
    | true => exact ⟨env.realProfiles, by simp [hr]⟩
    | false => exact ⟨[mock], by simp [hr]⟩

lemma sharedScout_isOk (strat : Bool) (mock : Profile) (realImp : Bool)
    (realProfiles : List Profile) :
    ∃ ps, (sharedScout strat mock realImp realProfiles).1 = .ok ps := by
  cases strat <;> cases realImp <;> simp [sharedScout]

lemma authTierResult_short_circuit (tag : String) (strat : Bool) (env : HybridEnv)
    (u : String) (htok : env.userToken.isSome = true)
    (himp : env.enhancedImportable = true) (hstrat : strat = true)
    (htag : env.enhancedProfiles.any (fun p => p.source? == some tag) = true) :
    authTierResult tag strat env (some u) = (some env.enhancedProfiles, true) := by
  obtain ⟨t, ht⟩ := Option.isSome_iff_exists.mp htok
  have hne : env.enhancedProfiles.isEmpty = false := by
    cases hl : env.enhancedProfiles with
    | nil => rw [hl] at htag; simp at htag
    | cons a as => rfl
  simp [authTierResult, hstrat, ht, himp, htag, hne]

lemma hybridScout_short_circuit (tag : String) (strat : Bool) (mock : Profile)
    (env : HybridEnv) (u : String) (htok : env.userToken.isSome = true)
    (himp : env.enhancedImportable = true) (hstrat : strat = true)
    (htag : env.enhancedProfiles.any (fun p => p.source? == some tag) = true) :
    hybridScout tag strat mock env (some u) =
      (.ok env.enhancedProfiles, ⟨true, false, false⟩) := by
  unfold hybridScout
  rw [authTierResult_short_circuit tag strat env u htok himp hstrat htag]

lemma authTierResult_none (tag : String) (strat : Bool) (env : HybridEnv)
    (uid : Option String)
    (h : ¬ (uid.isSome = true ∧ strat = true ∧ env.userToken.isSome = true ∧
            env.enhancedImportable = true ∧
            env.enhancedProfiles.any (fun p => p.source? == some tag) = true)) :
    (authTierResult tag strat env uid).1 = none := by
  unfold authTierResult
  by_cases h1 : (uid.isSome && strat) = true
  · rw [if_pos h1]
    obtain ⟨huid, hstrat⟩ := Bool.and_eq_true_iff.mp h1
    cases ht : env.userToken with
    | none => simp
    | some t =>
      simp only
      by_cases himp : env.enhancedImportable = true
      · rw [if_pos himp]
        have htag : env.enhancedProfiles.any (fun p => p.source? == some tag) = false := by
          cases hx : env.enhancedProfiles.any (fun p => p.source? == some tag) with
          | true => exact absurd ⟨huid, hstrat, by simp [ht], himp, hx⟩ h
          | false => rfl
        rw [if_neg (by simp [htag])]
      · rw [if_neg himp]
  · rw [if_neg h1]

lemma hybridScout_fallthrough (tag : String) (strat : Bool) (mock : Profile)
    (env : HybridEnv) (uid : Option String)
    (h : ¬ (uid.isSome = true ∧ strat = true ∧ env.userToken.isSome = true ∧
            env.enhancedImportable = true ∧
            env.enhancedProfiles.any (fun p => p.source? == some tag) = true)) :
    (hybridScout tag strat mock env uid).1 =
      if env.realImportable then .ok env.realProfiles else .ok [mock] := by
  have hA := authTierResult_none tag strat env uid h
  unfold hybridScout
  rcases hE : authTierResult tag strat env uid with ⟨o, a⟩
  rw [hE] at hA
  cases o with
  | some ps => simp at hA
  | none =>
    cases hr : env.realImportable with
    | true => simp [hr]
    | false => simp [hr]

/-! ### Claim theorems: the scouts -/

/-- C1.  For every environment (token lookup result, import successes,
backend outcomes) and every optional user id, each of the four scout
entry points — `linkedin_scout`, `x_scout`, `scout_from_email`,
`internet_scout` — returns `.ok` with a list of candidate profiles
(possibly the offline mock): no call raises.  The only raise sites in
the entry points are the two backend imports, both caught by `except
ImportError`, and every backend returns (each catches `Exception` at
its own top level). -/
theorem scouts_never_throw_always_list :
    (∀ (tok : Option TokenDict) (enhImp : Bool) (enhEnv : EnhancedEnv)
        (realImp pbKey : Bool) (ph : PhantomOutcome) (uid : Option String),
      ∃ ps, (linkedin_scout tok enhImp enhEnv realImp pbKey ph uid).1 = .ok ps) ∧
    (∀ (tok : Option TokenDict) (enhImp : Bool) (enhEnv : EnhancedEnv)
        (realImp bearer exc : Bool) (found : List Profile) (uid : Option String),
      ∃ ps, (x_scout tok enhImp enhEnv realImp bearer exc found uid).1 = .ok ps) ∧
    (∀ (realImp : Bool) (realProfiles : List Profile),
      ∃ ps, (scout_from_email realImp realProfiles).1 = .ok ps) ∧
    (∀ (realImp : Bool) (realProfiles : List Profile),
      ∃ ps, (internet_scout realImp realProfiles).1 = .ok ps) :=
  ⟨fun tok enhImp enhEnv realImp pbKey ph uid => hybridScout_isOk _ _ _ _ uid,
   fun tok enhImp enhEnv realImp bearer exc found uid => hybridScout_isOk _ _ _ _ uid,
   fun realImp realProfiles => sharedScout_isOk _ _ _ _,
   fun realImp realProfiles => sharedScout_isOk _ _ _ _⟩

/-- C2.  When the authenticated-user tier of `linkedin_scout` or
`x_scout` is reachable (user id given, token present, enhanced module
importable) and the enhanced backend returns at least one profile
tagged with the tier's OAuth provenance, the scout returns exactly
those profiles and neither the shared tier nor the offline mock tier
is invoked (the trace records only the authenticated call). -/
theorem auth_tier_short_circuit
    (tok : TokenDict) (enhEnvL enhEnvX : EnhancedEnv)
    (realImpL pbKey realImpX bearer exc : Bool) (ph : PhantomOutcome)
    (found : List Profile) (u : String)
    (hL : (linkedin_scout_enhanced enhEnvL true).any
        (fun p => p.source? == some "linkedin_oauth") = true)
    (hX : (x_scout_enhanced enhEnvX true).any
        (fun p => p.source? == some "twitter_oauth") = true) :
    linkedin_scout (some tok) true enhEnvL realImpL pbKey ph (some u) =
      (.ok (linkedin_scout_enhanced enhEnvL true), ⟨true, false, false⟩) ∧
    x_scout (some tok) true enhEnvX realImpX bearer exc found (some u) =
      (.ok (x_scout_enhanced enhEnvX true), ⟨true, false, false⟩) :=
  ⟨hybridScout_short_circuit _ _ _ _ u rfl rfl rfl hL,
   hybridScout_short_circuit _ _ _ _ u rfl rfl rfl hX⟩

/-- A token dictionary used in concrete witnesses. -/
def witnessTokenDict : TokenDict :=
  ⟨some "access", some "refresh", none, "raw"⟩

/-- A profile carrying the LinkedIn OAuth provenance tag. -/
def oauthTaggedL : Profile :=
  { name? := some "Jane Linked", source? := some "linkedin_oauth" }

/-- A profile carrying the Twitter OAuth provenance tag. -/
def oauthTaggedX : Profile :=
  { name? := some "Jane X", source? := some "twitter_oauth" }

/-- Enhanced-scout environment whose user-token search yields one
LinkedIn-OAuth-tagged profile. -/
def enhEnvWitnessL : EnhancedEnv := ⟨some witnessTokenDict, [oauthTaggedL], false, []⟩

/-- Enhanced-scout environment whose user-token search yields one
Twitter-OAuth-tagged profile. -/
def enhEnvWitnessX : EnhancedEnv := ⟨some witnessTokenDict, [oauthTaggedX], false, []⟩

/-- Witness for `auth_tier_short_circuit` at a concrete environment. -/
theorem auth_tier_short_circuit_witness :
    linkedin_scout (some witnessTokenDict) true enhEnvWitnessL true true (.results [])
        (some "u1") =
      (.ok (linkedin_scout_enhanced enhEnvWitnessL true), ⟨true, false, false⟩) ∧
    x_scout (some witnessTokenDict) true enhEnvWitnessX true true false []
        (some "u1") =
      (.ok (x_scout_enhanced enhEnvWitnessX true), ⟨true, false, false⟩) :=
  auth_tier_short_circuit witnessTokenDict enhEnvWitnessL enhEnvWitnessX
    true true true true false (.results []) [] "u1" (by decide) (by decide)

/-- C3 (counterexample).  With no user id, the shared backend
importable, PhantomBuster configured, and a phantom run that completes
with zero results, `linkedin_scout` returns the shared tier's empty
list as-is: the zero-result outcome of the shared tier does not fall
through to the terminal mock tier (the trace shows the offline tier
was not used), and the scout call returns an empty list. -/
theorem shared_tier_empty_result_counterexample :
    linkedin_scout none true ⟨none, [], false, []⟩ true true (.results []) none =
      (.ok [], ⟨false, true, false⟩) := rfl

/-- C3 (amended).  Whenever the authenticated-user tier of
`linkedin_scout` or `x_scout` does not short-circuit (no user id, or
no token, or the enhanced module fails to import, or its result
carries no OAuth-tagged profile), execution falls through to the
shared tier, whose result — empty or not — is returned as-is when the
shared module imports; only an `ImportError` of the shared module
falls through to the terminal mock tier, which returns exactly one
profile.  Zero-result fall-through holds for the authenticated tier
only, and a scout call can return an empty list. -/
theorem tier_fallthrough_amended
    (tok : Option TokenDict) (enhImp : Bool) (enhEnvL enhEnvX : EnhancedEnv)
    (realImpL pbKey realImpX bearer exc : Bool) (ph : PhantomOutcome)
    (found : List Profile) (uid : Option String)
    (hL : ¬ (uid.isSome = true ∧ tok.isSome = true ∧ enhImp = true ∧
        (linkedin_scout_enhanced enhEnvL uid.isSome).any
          (fun p => p.source? == some "linkedin_oauth") = true))
    (hX : ¬ (uid.isSome = true ∧ tok.isSome = true ∧ enhImp = true ∧
        (x_scout_enhanced enhEnvX uid.isSome).any
          (fun p => p.source? == some "twitter_oauth") = true)) :
    (linkedin_scout tok enhImp enhEnvL realImpL pbKey ph uid).1 =
      (if realImpL then .ok (linkedin_scout_real pbKey ph)
       else .ok [linkedinMockProfile]) ∧
    (x_scout tok enhImp enhEnvX realImpX bearer exc found uid).1 =
      (if realImpX then .ok (x_scout_real bearer exc found)
       else .ok [xMockProfile]) ∧
    [linkedinMockProfile].length = 1 ∧ [xMockProfile].length = 1 :=
  ⟨hybridScout_fallthrough _ _ _ _ uid
      (fun ⟨a, _, b, c, d⟩ => hL ⟨a, b, c, d⟩),
   hybridScout_fallthrough _ _ _ _ uid
      (fun ⟨a, _, b, c, d⟩ => hX ⟨a, b, c, d⟩),
   rfl, rfl⟩

/-- Witness for `tier_fallthrough_amended` at a concrete environment:
no user id and no importable shared backend, so both scouts serve the
terminal one-profile mock. -/
theorem tier_fallthrough_amended_witness :
    (linkedin_scout none false ⟨none, [], false, []⟩ false false .launchFail none).1 =
      (if false then .ok (linkedin_scout_real false .launchFail)
       else .ok [linkedinMockProfile]) ∧
    (x_scout none false ⟨none, [], false, []⟩ false false false [] none).1 =
      (if false then .ok (x_scout_real false false [])
       else .ok [xMockProfile]) ∧
    [linkedinMockProfile].length = 1 ∧ [xMockProfile].length = 1 :=
  tier_fallthrough_amended none false ⟨none, [], false, []⟩ ⟨none, [], false, []⟩
    false false false false false .launchFail [] none (by decide) (by decide)

/-! ### Lemmas and claim theorems: credential store and usage tracker -/

lemma refresh_token_eq_none (u p : String) (rt : Option String) :
    refresh_token u p rt = none := by
  simp [refresh_token]

/-- C7.  For every database state whose newest credential row for
`(u, p)` has an expiry timestamp in the past, `get_user_token` returns
`none`, attempts the (failing) refresh, and leaves the database — in
particular the stored row — unchanged; and the immediately following
`get_user_token` call on the resulting state attempts the refresh
again with the same outcome. -/
theorem expired_token_failing_refresh (db : Db) (now : Nat) (u p : String)
    (row : TokenRow) (t : Nat)
    (hrow : latestTokenRow db u p = some row)
    (hexp : row.expiresAt = some t) (hpast : t < now) :
    get_user_token db now u p = (none, db, true) ∧
    get_user_token ((get_user_token db now u p).2.1) now u p = (none, db, true) := by
  have h1 : get_user_token db now u p = (none, db, true) := by
    simp [get_user_token, hrow, hexp, hpast, refresh_token_eq_none]
  exact ⟨h1, by rw [h1]; exact h1⟩

/-- The payload stored in the concrete C7 scenario: a token that
expires ten time units after storage. -/
def c7payload : TokenPayload :=
  { accessToken := some "tok", refreshToken := some "ref",
    expiresIn := some 10, raw := "d" }

/-- A store holding one `twitter` credential for `u1`, stored at time
100, expiring at 110. -/
def c7db : Db := store_social_token 100 "u1" "twitter" c7payload {}

/-- Witness for `expired_token_failing_refresh`: read the expired
credential at time 200. -/
theorem expired_token_failing_refresh_witness :
    get_user_token c7db 200 "u1" "twitter" = (none, c7db, true) ∧
    get_user_token ((get_user_token c7db 200 "u1" "twitter").2.1) 200 "u1" "twitter" =
      (none, c7db, true) :=
  expired_token_failing_refresh c7db 200 "u1" "twitter"
    ⟨1, "u1", "twitter", some "tok", some "ref", some 110, "d", 100⟩ 110
    (by decide) rfl (by decide)

/-- Two distinct token payloads for the C8 scenario. -/
def c8payloadA : TokenPayload := { accessToken := some "tokA", raw := "a" }

/-- See `c8payloadA`. -/
def c8payloadB : TokenPayload := { accessToken := some "tokB", raw := "b" }

/-- C8 (evaluation at the failing input).  Storing a second token for
a `(user, platform)` pair that already has one does not overwrite the
existing row: the `social_tokens` table has no UNIQUE constraint on
`(user_id, platform)`, so the `INSERT OR REPLACE` of
`store_social_token` degenerates to a plain insert and the store ends
up holding two live rows for the pair. -/
theorem store_social_token_accumulates_rows :
    ((store_social_token 200 "u1" "twitter" c8payloadB
        (store_social_token 100 "u1" "twitter" c8payloadA {})).socialTokens.filter
      (fun r => r.userId == "u1" && r.platform == "twitter")).length = 2 := rfl

/-- The usage store after calling `track_api_usage` three times for
the same `(user, platform, endpoint)` key on one day, starting from an
empty store. -/
def c9db : Db :=
  track_api_usage 50 "u1" "twitter" "search"
    (track_api_usage 50 "u1" "twitter" "search"
      (track_api_usage 50 "u1" "twitter" "search" {}))

/-- C9 (evaluation at the failing input).  Calling `track(u,p,e)`
three times and then `usage(u,p,1)` returns `9` for the endpoint, not
`3`: the `api_usage` table has no UNIQUE constraint on `(user_id,
platform, endpoint, date)`, so each call's `INSERT OR IGNORE` inserts
a fresh count-1 row, and the following `UPDATE` increments every row
matching the key — the first call already leaves a count of 2, and
three calls leave rows 4, 3, 2 summing to 9. -/
theorem track_usage_triple_yields_nine :
    get_user_usage c9db 50 "u1" "twitter" 1 = [("search", 9)] ∧
    (("search", 9) : String × Nat) ≠ ("search", 3) := ⟨rfl, by decide⟩

/-! ### Lemmas and claim theorem: pipeline partial failure -/

lemma enrichProfiles_all_ok (g : Profile → String) (goal ci : String) :
    ∀ (ps : List Profile) (errs : List String),
      enrichProfiles (fun p => .ok (g p)) goal ci ps errs =
        (ps.map (fun p => setMessage (g p) p), errs) := by
  intro ps
  induction ps with
  | nil => intro errs; rfl
  | cons p ps ih =>
    intro errs
    simp [enrichProfiles, ih]

/-- C6.  In a fan-out over two scout calls where one raises and the
other returns a non-empty list of (named) profiles, and message
generation succeeds, the pipeline returns the success response: its
warning list is exactly the one failure warning (keyed by the failing
call's source and query), and its profiles are exactly the surviving
call's profiles after deduplication, truncation, and message
enrichment — every returned record comes from the surviving call's
list.  This holds for both orders of the two calls: the raising call
never halts its sibling. -/
theorem partial_failure_isolated (g : Profile → String) (goal ci sa qa sb qb : String)
    (e : PyExc) (ps : List Profile) (n : Nat)
    (hne : ps ≠ []) (hnamed : ∀ p ∈ ps, (p.name?).isSome) :
    ∃ us, validate_and_rank ps goal ci = .ok us ∧
      (∀ r ∈ us, ∃ p0, p0 ∈ ps ∧ r = setScore 1 p0) ∧
      lead_discovery_core (fun p => .ok (g p)) goal ci n
          [⟨sa, qa, .error e⟩, ⟨sb, qb, .ok ps⟩] =
        .success ((us.take n).map (fun p => setMessage (g p) p)) ps.length
          (us.take n).length (some [scoutFailWarning sa qa e]) ∧
      lead_discovery_core (fun p => .ok (g p)) goal ci n
          [⟨sb, qb, .ok ps⟩, ⟨sa, qa, .error e⟩] =
        .success ((us.take n).map (fun p => setMessage (g p) p)) ps.length
          (us.take n).length (some [scoutFailWarning sa qa e]) := by
  have hempty : ps.isEmpty = false := by
    cases ps with
    | nil => exact absurd rfl hne
    | cons a as => rfl
  have hval := validate_and_rank_eq_kept ps goal ci hnamed
  refine ⟨keptByFirstName ps [], hval, keptByFirstName_mem ps [], ?_, ?_⟩
  · have hrun : runScoutCalls [⟨sa, qa, .error e⟩, ⟨sb, qb, .ok ps⟩] =
        (ps, [scoutFailWarning sa qa e]) := by
      simp [runScoutCalls]
    simp [lead_discovery_core, hrun, hempty, hval, enrichProfiles_all_ok]
  · have hrun : runScoutCalls [⟨sb, qb, .ok ps⟩, ⟨sa, qa, .error e⟩] =
        (ps, [scoutFailWarning sa qa e]) := by
      simp [runScoutCalls]
    simp [lead_discovery_core, hrun, hempty, hval, enrichProfiles_all_ok]

/-- Witness for `partial_failure_isolated` at a concrete request: one
raising LinkedIn call, one succeeding X call returning a single named
profile, target 5. -/
theorem partial_failure_isolated_witness :
    ∃ us, validate_and_rank [oauthTaggedX] "g" "c" = .ok us ∧
      (∀ r ∈ us, ∃ p0, p0 ∈ [oauthTaggedX] ∧ r = setScore 1 p0) ∧
      lead_discovery_core (fun p => .ok "hello") "g" "c" 5
          [⟨"LinkedIn", "qa", .error .runtimeError⟩, ⟨"X", "qb", .ok [oauthTaggedX]⟩] =
        .success ((us.take 5).map (fun p => setMessage "hello" p)) 1
          (us.take 5).length (some [scoutFailWarning "LinkedIn" "qa" .runtimeError]) ∧
      lead_discovery_core (fun p => .ok "hello") "g" "c" 5
          [⟨"X", "qb", .ok [oauthTaggedX]⟩, ⟨"LinkedIn", "qa", .error .runtimeError⟩] =
        .success ((us.take 5).map (fun p => setMessage "hello" p)) 1
          (us.take 5).length (some [scoutFailWarning "LinkedIn" "qa" .runtimeError]) :=
  partial_failure_isolated (fun _ => "hello") "g" "c" "LinkedIn" "qa" "X" "qb"
    .runtimeError [oauthTaggedX] 5 (by decide) (by decide)

end PreFunnel
